import Mathlib

/-
Verification of the view-orchestration core of the game (main.py) and of the
player animation subsystem (src/code/player/player.py) and button layout
(src/code/views/button.py), as a shallow embedding in Lean 4.

Conventions of the embedding:
* Machine integers of the source are `ℕ`/`ℤ`; Python floats that carry exact
  decimal constants (animation speeds, scale factors) are `ℚ`.
* `pygame` surfaces are abstracted to their size and fill colour, which is all
  the claims observe.
* Python exceptions that the source catches locally are modelled by `Option`
  results; code paths the source makes unreachable are noted in comments.
-/

namespace PGJ

/-- CPython `int(float)` conversion truncates toward zero; a `pygame.Rect`
coordinate assignment performs the same truncation. -/
def pyInt (q : ℚ) : ℤ :=
  if 0 ≤ q then ⌊q⌋ else ⌈q⌉

/-- An image surface, abstracted to its pixel size and (uniform) fill colour. -/
structure Surface where
  width : ℕ
  height : ℕ
  color : ℕ × ℕ × ℕ
deriving DecidableEq

/-- One animation frame as stored by `Player.load_animations`: the loaded image
and its horizontal mirror (`pygame.transform.flip(img, True, False)`). -/
structure Frame where
  original : Surface
  flipped : Surface
deriving DecidableEq

/-- The magenta fill used for every fallback visual in player.py. -/
def magenta : ℕ × ℕ × ℕ := (255, 0, 255)

/-- The 32x32 magenta placeholder surface of player.py. -/
def placeholderSurface : Surface := ⟨32, 32, magenta⟩

/-- The placeholder frame entered into the animation table when nothing loads
(player.py lines 83-86): the same surface is used for both orientations. -/
def placeholderFrame : Frame := ⟨placeholderSurface, placeholderSurface⟩

/-- `pygame.transform.flip` preserves the size (and, in this abstraction, the
fill colour) of a surface. -/
def flipSurface (s : Surface) : Surface := s

/-- The scaling step of `Player.load_animations` (lines 58-61): when
`scale != 1.0` the frame is rescaled to `(int(w*scale), int(h*scale))`. -/
def scaleSurface (scale : ℚ) (s : Surface) : Surface :=
  if scale ≠ 1 then
    { s with width := (pyInt ((s.width : ℚ) * scale)).toNat,
             height := (pyInt ((s.height : ℚ) * scale)).toNat }
  else s

/-- Abstraction of the filesystem seen by `Player.load_animations`: a path
maps to `none` when `os.path.exists` fails (or listing raises, both of which
the source skips over), and otherwise to the sorted file list, where each
file either decodes to a surface or raises (caught at lines 69-70). -/
def FS : Type := String → Option (List (Option Surface))

/-- Python-dict lookup on an association list (keys are unique in all uses). -/
def dlookup {β : Type} (k : String) : List (String × β) → Option β
  | [] => none
  | (a, b) :: rest => if a = k then some b else dlookup k rest

/-- The per-directory frame loop of `Player.load_animations` (lines 52-70):
files that fail to decode are skipped with a logged error, the rest are
scaled and paired with their mirror. -/
def loadFrames (scale : ℚ) (files : List (Option Surface)) : List Frame :=
  files.filterMap fun f =>
    f.map fun img =>
      let img := scaleSurface scale img
      ⟨img, flipSurface img⟩

/-- The per-animation body of the loop in `Player.load_animations`
(lines 41-80): a missing path (or a listing error) is skipped with a
warning, an empty frame list is skipped with a warning, and otherwise the
frames are entered into the table under the animation's name. -/
def loadAnimStep (fs : FS) (scale : ℚ) (acc : List (String × List Frame))
    (np : String × String) : List (String × List Frame) :=
  match fs np.2 with
  | none => acc
  | some files =>
      let frames := loadFrames scale files
      if frames.isEmpty then acc else acc ++ [(np.1, frames)]

/-- `Player.load_animations` (player.py lines 39-87): builds the animation
table, skipping missing directories and empty frame lists, and installs the
magenta placeholder under "idle" when the table would otherwise be empty.
The Python dict is modelled as an association list in insertion order. -/
def load_animations (fs : FS) (scale : ℚ)
    (animation_paths : List (String × String)) : List (String × List Frame) :=
  let table := animation_paths.foldl (loadAnimStep fs scale) []
  if table.isEmpty then [("idle", [placeholderFrame])] else table

/-- The default-speed fill-in loop of `Player.load_animations`
(lines 89-92): any loaded animation without a configured speed gets 0.1. -/
def fillDefaultSpeeds (speeds : List (String × ℚ))
    (frames : List (String × List Frame)) : List (String × ℚ) :=
  frames.foldl
    (fun acc nf => if (dlookup nf.1 acc).isSome then acc else acc ++ [(nf.1, 1/10)])
    speeds

/-- The `animation_speeds` dict initialised in `Player.__init__`
(lines 16-20): idle 0.1, walking 0.08, attack 0.05. -/
def initialSpeeds : List (String × ℚ) :=
  [("idle", 1/10), ("walking", 2/25), ("attack", 1/20)]

/-- State of a `Player` (player.py). `rect` is abstracted to its centre. -/
structure Player where
  speed : ℚ
  scale : ℚ
  animation_frames : List (String × List Frame)
  animation_speeds : List (String × ℚ)
  current_animation : String
  frame_index : ℕ
  animation_timer : ℚ
  facing_right : Bool
  image : Surface
  rectCenter : ℤ × ℤ
deriving DecidableEq

/-- `Player.__init__` (lines 10-37): loads the animation table, then selects
the initial image — the first "idle" frame when one exists, otherwise the
32x32 magenta fallback surface built inline at lines 33-34. -/
def Player.init (pos : ℤ × ℤ) (fs : FS) (animation_paths : List (String × String))
    (speed : ℚ) (scale : ℚ) : Player :=
  let frames := load_animations fs scale animation_paths
  let speeds := fillDefaultSpeeds initialSpeeds frames
  let image :=
    match dlookup "idle" frames with
    | some (f :: _) => f.original
    | some [] => ⟨32, 32, magenta⟩
    | none => ⟨32, 32, magenta⟩
  { speed := speed, scale := scale, animation_frames := frames,
    animation_speeds := speeds, current_animation := "idle",
    frame_index := 0, animation_timer := 0, facing_right := true,
    image := image, rectCenter := pos }

/-- `Player.get_current_animation_speed` (lines 94-96). -/
def Player.get_current_animation_speed (p : Player) : ℚ :=
  (dlookup p.current_animation p.animation_speeds).getD (1/10)

/-- The catch-up `while` loop of `Player.animate` (lines 112-114):
`while timer >= speed: timer -= speed; idx = (idx+1) % count`.
The source guard is `speed ≤ timer`; the conjunct `0 < speed` only rules out
the inputs on which the source loop would never terminate, and is implied by
claim C10's hypothesis. -/
def animateLoop (timer speed : ℚ) (idx count : ℕ) : ℚ × ℕ :=
  if h : 0 < speed ∧ speed ≤ timer then
    animateLoop (timer - speed) speed ((idx + 1) % count) count
  else
    (timer, idx)
termination_by (⌈timer / speed⌉).toNat
decreasing_by
  obtain ⟨hs, ht⟩ := h
  have hne : speed ≠ 0 := ne_of_gt hs
  have h1 : (timer - speed) / speed = timer / speed - 1 := by
    rw [sub_div, div_self hne]
  have h2 : (1 : ℚ) ≤ timer / speed := (one_le_div hs).mpr ht
  have h3 : (1 : ℤ) ≤ ⌈timer / speed⌉ := by
    have := Int.le_ceil (timer / speed)
    exact_mod_cast le_trans h2 this
  have h4 : ⌈(timer - speed) / speed⌉ = ⌈timer / speed⌉ - 1 := by
    rw [h1]
    exact_mod_cast Int.ceil_sub_int (timer / speed) 1
  simp only [h4]
  omega

/-- `Player.animate` (lines 98-123): missing animation returns unchanged;
otherwise the timer advances by `dt` and, when it reaches the current speed,
the catch-up loop runs and the image is refreshed from the new frame index.
The default frame of `getD` is never consulted: the index stays in range. -/
def Player.animate (p : Player) (dt : ℚ) : Player :=
  match dlookup p.current_animation p.animation_frames with
  | none => p
  | some frames =>
    let current_speed := p.get_current_animation_speed
    let timer := p.animation_timer + dt
    let frames_count := frames.length
    if current_speed ≤ timer then
      let r := animateLoop timer current_speed p.frame_index frames_count
      let fr := frames.getD r.2 placeholderFrame
      { p with animation_timer := r.1, frame_index := r.2,
               image := if p.facing_right then fr.original else fr.flipped }
    else
      { p with animation_timer := timer }

/-- Modelled from the spec: `LoadingScreen` (src/code/views/loading_screen.py
is not under src/). Per spec §4.4 it holds the fade `alpha` (0-255), an
`active` flag that is true through FadingIn and Loading and false once
fade-out starts, the load `progress` (0-100), and its own overlay geometry. -/
structure LoadingScreen where
  alpha : ℕ
  active : Bool
  progress : ℕ
  width : ℕ
  height : ℕ
deriving DecidableEq

/-- Modelled from the spec: construction of the overlay "starts directly in
FadingIn" (§4.4), so alpha 0, active, progress 0, sized to the current
window (main.py lines 76-81 pass both the design and the current size). -/
def LoadingScreen.init (curW curH : ℕ) : LoadingScreen :=
  ⟨0, true, 0, curW, curH⟩

/-- Modelled from the spec: `update_fade` moves `alpha` by the fixed step 5
per tick (§8 scenario: "a configured step of 5/tick"), up toward 255 while
`active` and down toward 0 afterwards; Loading keeps alpha pinned at 255
(§4.4). Natural subtraction gives the clamp at 0. -/
def LoadingScreen.update_fade (t : LoadingScreen) : LoadingScreen :=
  if t.active then { t with alpha := min (t.alpha + 5) 255 }
  else { t with alpha := t.alpha - 5 }

/-- Modelled from the spec: the loader updates shared `progress` via this
setter (§4.4 "progress is updated by the loader via callback/shared field"). -/
def LoadingScreen.update_progress (t : LoadingScreen) (p : ℕ) : LoadingScreen :=
  { t with progress := p }

/-- Modelled from the spec: "the controller must resize its own overlay
geometry to match the new window size" (§4.4); called from
`Game.toggle_fullscreen` (main.py lines 269-270). -/
def LoadingScreen.update_screen_size (t : LoadingScreen) (w h : ℕ) : LoadingScreen :=
  { t with width := w, height := h }

/-- The view variants owned by the orchestrator. The `id` field stands for
Python object identity: each construction uses a fresh id, so equality of
ids is reference equality. Settings carries its `is_ingame` flag. -/
inductive View where
  | mainMenu (id : ℕ)
  | settings (isIngame : Bool) (id : ℕ)
  | gameView (id : ℕ)
deriving DecidableEq

/-- State of the `Game` orchestrator (main.py). Pygame-global effects are
fields: `mouseVisible` for `pygame.mouse.set_visible`, `mouseEventsBlocked`
for the `set_allowed`/`set_blocked` pair on mouse motion/click events.
`hasLoadTask` is `hasattr(self, 'load_task')`; `tasksCreated` is a ghost
counter of `asyncio.create_task` calls, used to state the at-most-once
claim. `fontScale` records the uniform factor `handle_resize` computes for
the font. `exited` records that `switch_view("exit")` ran `pygame.quit()`
and `exit()`. -/
structure Game where
  designWidth : ℕ
  designHeight : ℕ
  width : ℕ
  height : ℕ
  fullscreen : Bool
  windowedSize : ℕ × ℕ
  fontScale : ℚ
  currentView : Option View
  transitionScreen : Option LoadingScreen
  pendingView : Option String
  hasLoadTask : Bool
  tasksCreated : ℕ
  savedGameView : Option View
  mouseVisible : Bool
  mouseEventsBlocked : Bool
  exited : Bool
deriving DecidableEq

/-- The single uniform scale factor `min(w/design_w, h/design_h)`. -/
def uniformScale (w h dw dh : ℕ) : ℚ :=
  min ((w : ℚ) / (dw : ℚ)) ((h : ℚ) / (dh : ℚ))

/-- `Game.handle_resize` (main.py lines 52-61): recomputes the uniform font
scale from the current size and forwards the new size to the current view.
The views' own layout lives in the excluded view classes, so the forwarding
has no further effect on this state. -/
def Game.handle_resize (g : Game) : Game :=
  { g with fontScale := uniformScale g.width g.height g.designWidth g.designHeight }

/-- `Game.switch_view` (main.py lines 63-116). `freshId` is the identity of
the view object a branch constructs. Note the "main" branch (lines 65-73)
clears only `pending_view`; it does not touch `transition_screen` or the
`load_task` attribute. The "ingame_settings" branch saves the current view
only when it is a GameView (lines 98-99). Every branch except "exit" ends
in `handle_resize` (line 116); "exit" terminates the process first. -/
def Game.switch_view (g : Game) (viewName : String) (freshId : ℕ) : Game :=
  if viewName = "main" then
    Game.handle_resize
      { g with mouseVisible := true,
               currentView := some (View.mainMenu freshId),
               mouseEventsBlocked := false,
               pendingView := none }
  else if viewName = "game" then
    Game.handle_resize
      { g with pendingView := some "game",
               transitionScreen := some (LoadingScreen.init g.width g.height) }
  else if viewName = "settings" then
    Game.handle_resize
      { g with mouseVisible := true,
               currentView := some (View.settings false freshId),
               mouseEventsBlocked := false,
               pendingView := none }
  else if viewName = "ingame_settings" then
    Game.handle_resize
      { g with mouseVisible := true,
               savedGameView :=
                 match g.currentView with
                 | some (View.gameView i) => some (View.gameView i)
                 | _ => g.savedGameView,
               currentView := some (View.settings true freshId),
               mouseEventsBlocked := false,
               pendingView := none }
  else if viewName = "exit" then
    { g with exited := true }
  else
    Game.handle_resize g

/-- `Game.handle_transition` (main.py lines 125-146). Returns the updated
state and the Python truthiness of the return value (`True` on the fade and
loading branches, `None` — falsy — on the completion branch and when no
transition is pending). The `none` overlay case under a pending view would
be an `AttributeError` in Python and is unreachable; it returns falsy here.
Task creation (line 136) is guarded by `hasattr(self, 'load_task')` and
bumps the ghost counter; completion (lines 143-145) clears the overlay, the
marker and the task attribute (`del self.load_task`). -/
def Game.handle_transition (g : Game) : Game × Bool :=
  if g.pendingView = some "game" then
    match g.transitionScreen with
    | none => (g, false)
    | some ts0 =>
      let ts := ts0.update_fade
      let g1 := { g with transitionScreen := some ts }
      if ts.active then
        if ts.alpha < 255 then (g1, true)
        else if g1.hasLoadTask then (g1, true)
        else ({ g1 with hasLoadTask := true, tasksCreated := g1.tasksCreated + 1 }, true)
      else
        if 0 < ts.alpha then (g1, true)
        else ({ g1 with transitionScreen := none, pendingView := none,
                        hasLoadTask := false }, false)
  else (g, false)

/-- Observable actions of the loading task, in program order.
`sleepTenths 3` is `await asyncio.sleep(0.3)` measured in tenths of a
second; `renderTransition` is the out-of-band `self.render_transition()`
call; `eventPump` is `pygame.event.pump()`. -/
inductive LoadEvent where
  | sleepTenths (t : ℕ)
  | setProgress (p : ℕ)
  | renderTransition
  | eventPump
  | setCurrentViewGameView
  | blockMouseEvents
  | hideCursor
  | startFadeOut
deriving DecidableEq

/-- One iteration of the loop in `Game.load_game_resources`
(main.py lines 151-155): sleep, set progress to `(i+1)*20`, render the
transition out of band, pump events. -/
def loadStep (acc : Game × List LoadEvent) (i : ℕ) : Game × List LoadEvent :=
  let g := { acc.1 with transitionScreen :=
               acc.1.transitionScreen.map (fun t => t.update_progress ((i + 1) * 20)) }
  (g, acc.2 ++ [LoadEvent.sleepTenths 3, LoadEvent.setProgress ((i + 1) * 20),
                LoadEvent.renderTransition, LoadEvent.eventPump])

/-- `Game.load_game_resources` (main.py lines 148-167): five loading steps,
then construction of the GameView (identity `gameViewId`), making it the
current view, blocking mouse events, hiding the cursor, and starting the
fade-out by clearing the overlay's `active` flag. -/
def Game.load_game_resources (g : Game) (gameViewId : ℕ) : Game × List LoadEvent :=
  let r := (List.range 5).foldl loadStep (g, [])
  let g1 := { r.1 with
                currentView := some (View.gameView gameViewId),
                mouseEventsBlocked := true,
                mouseVisible := false,
                transitionScreen :=
                  r.1.transitionScreen.map (fun t => { t with active := false }) }
  (g1, r.2 ++ [LoadEvent.setCurrentViewGameView, LoadEvent.blockMouseEvents,
               LoadEvent.hideCursor, LoadEvent.startFadeOut])

/-- The events of the main loop's event branch (main.py lines 219-227). -/
inductive PEvent where
  | quit
  | videoResize (w h : ℕ)
deriving DecidableEq

/-- One step of the event loop in `Game.run` (lines 219-227): QUIT clears
`running`; VIDEORESIZE, only while not fullscreen, sets the size, records
it as the windowed size, and runs `handle_resize`. -/
def Game.process_event (g : Game) (running : Bool) (e : PEvent) : Game × Bool :=
  match e with
  | PEvent.quit => (g, false)
  | PEvent.videoResize w h =>
      if g.fullscreen then (g, running)
      else (Game.handle_resize
              { g with width := w, height := h, windowedSize := (w, h) }, running)

/-- The full event `for` loop of one iteration (it never breaks early). -/
def Game.process_events (g : Game) (events : List PEvent) : Game × Bool :=
  events.foldl (fun acc e => Game.process_event acc.1 acc.2 e) (g, true)

/-- The control slice of one iteration of `Game.run` (lines 198-240) that
the claims observe: when an overlay exists and `handle_transition` returns
truthy, the iteration renders the transition and `continue`s — the fetched
events are discarded without being processed; otherwise the events are
processed. View update and drawing carry no orchestrator state and are
elided. Returns the state and the `running` flag. -/
def Game.run_iteration (g : Game) (events : List PEvent) : Game × Bool :=
  if g.transitionScreen.isSome then
    let r := g.handle_transition
    if r.2 then (r.1, true)
    else Game.process_events r.1 events
  else Game.process_events g events

/-- `Game.toggle_fullscreen` (main.py lines 245-270). `systemSize` is the
fullscreen resolution `pygame.display.set_mode((0,0), FULLSCREEN)` reports.
Entering records the windowed size first; exiting restores it. Both paths
end with `handle_resize` and, when an overlay is live, with
`update_screen_size` on it. -/
def Game.toggle_fullscreen (g : Game) (systemSize : ℕ × ℕ) : Game :=
  let g0 := { g with fullscreen := !g.fullscreen }
  let g1 :=
    if g0.fullscreen then
      { g0 with windowedSize := (g0.width, g0.height),
                width := systemSize.1, height := systemSize.2 }
    else
      { g0 with width := g0.windowedSize.1, height := g0.windowedSize.2 }
  let g2 := g1.handle_resize
  { g2 with transitionScreen :=
      g2.transitionScreen.map (fun t => t.update_screen_size g2.width g2.height) }

/-- `Game.return_to_game` (main.py lines 272-278): when a game view was
saved, restore it as current, hide the cursor, block mouse events and
clear the pending marker. -/
def Game.return_to_game (g : Game) : Game :=
  match g.savedGameView with
  | some v => { g with currentView := some v, mouseVisible := false,
                       mouseEventsBlocked := true, pendingView := none }
  | none => g

/-- Iterating `handle_transition` over loop ticks, discarding the flag. -/
def Game.iterate_transition (g : Game) : ℕ → Game
  | 0 => g
  | n + 1 => Game.iterate_transition (g.handle_transition).1 n

/-- Geometry of a `Button` (button.py lines 5-22): the design-time layout
values and the live `pygame.Rect`. The image pipeline (9-slice scaling,
hover tint) is out of the claims' scope and carries no geometry. -/
structure Button where
  original_x : ℚ
  original_y : ℚ
  original_width : ℚ
  original_height : ℚ
  rect_x : ℤ
  rect_y : ℤ
  rect_w : ℤ
  rect_h : ℤ
deriving DecidableEq

/-- `Button.resize` (button.py lines 56-61): the x coordinate and width are
scaled by `scale_x`, the y coordinate and height by `scale_y`; `pygame.Rect`
truncates each product toward zero. -/
def Button.resize (b : Button) (scale_x scale_y : ℚ) : Button :=
  { b with rect_x := pyInt (b.original_x * scale_x),
           rect_y := pyInt (b.original_y * scale_y),
           rect_w := pyInt (b.original_width * scale_x),
           rect_h := pyInt (b.original_height * scale_y) }

/-- Modelled from the spec: the menu views' `handle_resize`
(src/code/views/main_menu.py and settings_menu.py are not under src/)
rescales each of its buttons with the uniform factor
`min(w/design_w, h/design_h)` passed identically for both axes (§4.3). -/
def viewResizeButton (b : Button) (w h dw dh : ℕ) : Button :=
  b.resize (uniformScale w h dw dh) (uniformScale w h dw dh)

/-- A fresh orchestrator state right after `Game.__init__` (800x600 windowed,
no overlay, no pending transition), used as the base of concrete scenarios. -/
def baseGame : Game :=
  { designWidth := 800, designHeight := 600, width := 800, height := 600,
    fullscreen := false, windowedSize := (800, 600), fontScale := 1,
    currentView := some (View.mainMenu 0), transitionScreen := none,
    pendingView := none, hasLoadTask := false, tasksCreated := 0,
    savedGameView := none, mouseVisible := true, mouseEventsBlocked := false,
    exited := false }

/-- A state mid-transition: the fade-in has finished (alpha 255), the load
task has been created and the loader has reported 40 percent. -/
def c1Game : Game :=
  { baseGame with transitionScreen := some ⟨255, true, 40, 800, 600⟩,
                  pendingView := some "game", hasLoadTask := true,
                  tasksCreated := 1 }

/-- A state mid-fade-in (alpha 100), before the load task exists. -/
def c4Game : Game :=
  { baseGame with transitionScreen := some ⟨100, true, 0, 800, 600⟩,
                  pendingView := some "game" }

/-- A filesystem on which every animation path is missing. -/
def emptyFS : FS := fun _ => none

/-- No animation directory yields any frame: each path either does not exist
or every file in it fails to decode. -/
def allAnimationsFail (fs : FS) (scale : ℚ) (paths : List (String × String)) : Prop :=
  ∀ p ∈ paths, ∀ files, fs p.2 = some files → loadFrames scale files = []

/-- A player constructed over the empty filesystem: its animation table is
the placeholder singleton. -/
def c10Player : Player :=
  Player.init (0, 0) emptyFS [("idle", "./src/assets/player/idle")] 5 1

/-- C5: starting windowed at size (w, h), toggling fullscreen on and then
off again, with no windowed resize in between, leaves the recorded window
size exactly (w, h) — the pre-fullscreen size, never the system-reported
fullscreen size. -/
theorem c5_fullscreen_roundtrip (g : Game) (s1 s2 : ℕ × ℕ)
    (h : g.fullscreen = false) :
    ((g.toggle_fullscreen s1).toggle_fullscreen s2).width = g.width ∧
    ((g.toggle_fullscreen s1).toggle_fullscreen s2).height = g.height ∧
    ((g.toggle_fullscreen s1).toggle_fullscreen s2).fullscreen = false ∧
    ((g.toggle_fullscreen s1).toggle_fullscreen s2).windowedSize = (g.width, g.height) := by
  simp [Game.toggle_fullscreen, Game.handle_resize, h]

theorem c5_fullscreen_roundtrip_witness :
    baseGame.fullscreen = false ∧
    (((baseGame.toggle_fullscreen (1920, 1080)).toggle_fullscreen (2560, 1440)).width = baseGame.width ∧
     ((baseGame.toggle_fullscreen (1920, 1080)).toggle_fullscreen (2560, 1440)).height = baseGame.height ∧
     ((baseGame.toggle_fullscreen (1920, 1080)).toggle_fullscreen (2560, 1440)).fullscreen = false ∧
     ((baseGame.toggle_fullscreen (1920, 1080)).toggle_fullscreen (2560, 1440)).windowedSize =
       (baseGame.width, baseGame.height)) :=
  ⟨rfl, c5_fullscreen_roundtrip baseGame (1920, 1080) (2560, 1440) rfl⟩

/-- C6: a resize notification processed by the main loop is ignored while
fullscreen is active (the whole state is untouched); while windowed, the
current size and the remembered windowed size both become the event's
(width, height). -/
theorem c6_resize_notification (g : Game) (w h : ℕ) (running : Bool) :
    (g.fullscreen = true →
      (g.process_event running (PEvent.videoResize w h)).1 = g) ∧
    (g.fullscreen = false →
      (g.process_event running (PEvent.videoResize w h)).1.width = w ∧
      (g.process_event running (PEvent.videoResize w h)).1.height = h ∧
      (g.process_event running (PEvent.videoResize w h)).1.windowedSize = (w, h)) := by
  constructor <;> intro hf <;> simp [Game.process_event, hf, Game.handle_resize]

theorem c6_resize_notification_witness :
    baseGame.fullscreen = false ∧
    ((baseGame.process_event true (PEvent.videoResize 1024 768)).1.width = 1024 ∧
     (baseGame.process_event true (PEvent.videoResize 1024 768)).1.height = 768 ∧
     (baseGame.process_event true (PEvent.videoResize 1024 768)).1.windowedSize = (1024, 768)) :=
  ⟨rfl, (c6_resize_notification baseGame 1024 768 true).2 rfl⟩

/-- C7: from a state whose current view is a GameView, switching to the
embedded settings and then calling return_to_game makes that very GameView
(same identity) current again, re-hides the cursor, and re-blocks mouse
motion/click events. -/
theorem c7_embedded_settings_roundtrip (g : Game) (i fresh : ℕ)
    (h : g.currentView = some (View.gameView i)) :
    ((g.switch_view "ingame_settings" fresh).return_to_game).currentView =
      some (View.gameView i) ∧
    ((g.switch_view "ingame_settings" fresh).return_to_game).mouseVisible = false ∧
    ((g.switch_view "ingame_settings" fresh).return_to_game).mouseEventsBlocked = true := by
  simp [Game.switch_view, Game.return_to_game, Game.handle_resize, h]

theorem c7_embedded_settings_roundtrip_witness :
    ({ baseGame with currentView := some (View.gameView 3) } : Game).currentView =
      some (View.gameView 3) ∧
    ((({ baseGame with currentView := some (View.gameView 3) } : Game).switch_view
        "ingame_settings" 9).return_to_game.currentView = some (View.gameView 3) ∧
     (({ baseGame with currentView := some (View.gameView 3) } : Game).switch_view
        "ingame_settings" 9).return_to_game.mouseVisible = false ∧
     (({ baseGame with currentView := some (View.gameView 3) } : Game).switch_view
        "ingame_settings" 9).return_to_game.mouseEventsBlocked = true) :=
  ⟨rfl, c7_embedded_settings_roundtrip
          { baseGame with currentView := some (View.gameView 3) } 3 9 rfl⟩

/-- C8: handle_resize derives the single uniform factor
min(w/design_w, h/design_h), and a button resized through the view layout
has every rect component scaled by that same factor — the x axis and the
y axis use one and the same scale, never distinct factors. -/
theorem c8_uniform_button_scale (g : Game) (b : Button) (w h dw dh : ℕ) :
    (Game.handle_resize g).fontScale =
      uniformScale g.width g.height g.designWidth g.designHeight ∧
    viewResizeButton b w h dw dh =
      { b with rect_x := pyInt (b.original_x * uniformScale w h dw dh),
               rect_y := pyInt (b.original_y * uniformScale w h dw dh),
               rect_w := pyInt (b.original_width * uniformScale w h dw dh),
               rect_h := pyInt (b.original_height * uniformScale w h dw dh) } :=
  ⟨rfl, rfl⟩

/-- C1 fails on the code: from a mid-transition state, switch_view("main")
sets pending_view to None but leaves the transition overlay object and the
started load task in place (main.py lines 65-73 never touch
transition_screen or load_task), so later update() calls still draw the
stale overlay. -/
theorem c1_switch_main_counterexample :
    (c1Game.switch_view "main" 7).pendingView = none ∧
    (c1Game.switch_view "main" 7).transitionScreen = some ⟨255, true, 40, 800, 600⟩ ∧
    (c1Game.switch_view "main" 7).hasLoadTask = true := by
  decide

/-- C1 (amended): with a game-start transition pending, switch_view("main")
replaces the current view with a fresh MainMenu and clears only the
pending-view marker — the overlay object and the load-task attribute are
left exactly as they were — and with the marker cleared handle_transition
no longer drives the transition (it returns falsy). -/
theorem c1_switch_main_clears_marker_only (g : Game) (freshId : ℕ)
    (_h : g.pendingView = some "game") :
    (g.switch_view "main" freshId).currentView = some (View.mainMenu freshId) ∧
    (g.switch_view "main" freshId).pendingView = none ∧
    (g.switch_view "main" freshId).transitionScreen = g.transitionScreen ∧
    (g.switch_view "main" freshId).hasLoadTask = g.hasLoadTask ∧
    ((g.switch_view "main" freshId).handle_transition).2 = false := by
  simp [Game.switch_view, Game.handle_resize, Game.handle_transition]

theorem c1_switch_main_clears_marker_only_witness :
    c1Game.pendingView = some "game" ∧
    ((c1Game.switch_view "main" 7).currentView = some (View.mainMenu 7) ∧
     (c1Game.switch_view "main" 7).pendingView = none ∧
     (c1Game.switch_view "main" 7).transitionScreen = c1Game.transitionScreen ∧
     (c1Game.switch_view "main" 7).hasLoadTask = c1Game.hasLoadTask ∧
     ((c1Game.switch_view "main" 7).handle_transition).2 = false) :=
  ⟨rfl, c1_switch_main_clears_marker_only c1Game 7 rfl⟩

/-- C2: every run of the loading task performs exactly five steps, each of
them a ≈0.3s yielding pause followed by setting shared progress to
(step+1)*20 — reaching 100 at the fifth — and an out-of-band render of the
transition overlay; only after the fifth step is the GameView constructed,
made current, and the fade-out started. -/
theorem c2_loading_task_steps (g : Game) (ts : LoadingScreen) (i : ℕ)
    (h : g.transitionScreen = some ts) :
    (g.load_game_resources i).2 =
      [LoadEvent.sleepTenths 3, LoadEvent.setProgress 20,
       LoadEvent.renderTransition, LoadEvent.eventPump,
       LoadEvent.sleepTenths 3, LoadEvent.setProgress 40,
       LoadEvent.renderTransition, LoadEvent.eventPump,
       LoadEvent.sleepTenths 3, LoadEvent.setProgress 60,
       LoadEvent.renderTransition, LoadEvent.eventPump,
       LoadEvent.sleepTenths 3, LoadEvent.setProgress 80,
       LoadEvent.renderTransition, LoadEvent.eventPump,
       LoadEvent.sleepTenths 3, LoadEvent.setProgress 100,
       LoadEvent.renderTransition, LoadEvent.eventPump,
       LoadEvent.setCurrentViewGameView, LoadEvent.blockMouseEvents,
       LoadEvent.hideCursor, LoadEvent.startFadeOut] ∧
    (g.load_game_resources i).1.transitionScreen =
      some { ts with progress := 100, active := false } ∧
    (g.load_game_resources i).1.currentView = some (View.gameView i) := by
  refine ⟨rfl, ?_, rfl⟩
  simp [Game.load_game_resources, loadStep, h, LoadingScreen.update_progress,
        List.range_succ]

theorem c2_loading_task_steps_witness :
    c1Game.transitionScreen = some ⟨255, true, 40, 800, 600⟩ ∧
    ((c1Game.load_game_resources 5).2 =
      [LoadEvent.sleepTenths 3, LoadEvent.setProgress 20,
       LoadEvent.renderTransition, LoadEvent.eventPump,
       LoadEvent.sleepTenths 3, LoadEvent.setProgress 40,
       LoadEvent.renderTransition, LoadEvent.eventPump,
       LoadEvent.sleepTenths 3, LoadEvent.setProgress 60,
       LoadEvent.renderTransition, LoadEvent.eventPump,
       LoadEvent.sleepTenths 3, LoadEvent.setProgress 80,
       LoadEvent.renderTransition, LoadEvent.eventPump,
       LoadEvent.sleepTenths 3, LoadEvent.setProgress 100,
       LoadEvent.renderTransition, LoadEvent.eventPump,
       LoadEvent.setCurrentViewGameView, LoadEvent.blockMouseEvents,
       LoadEvent.hideCursor, LoadEvent.startFadeOut] ∧
     (c1Game.load_game_resources 5).1.transitionScreen =
       some { alpha := 255, active := false, progress := 100, width := 800, height := 600 } ∧
     (c1Game.load_game_resources 5).1.currentView = some (View.gameView 5)) :=
  ⟨rfl, c2_loading_task_steps c1Game ⟨255, true, 40, 800, 600⟩ 5 rfl⟩

/-- C4 fails on the code: a VIDEORESIZE event that arrives while the loop is
driving a live transition is discarded — the iteration renders the overlay
and continues before the event loop runs — so neither the overlay geometry
nor the window size changes in that iteration (the overlay only advanced its
fade from 100 to 105). -/
theorem c4_resize_during_transition_counterexample :
    (c4Game.run_iteration [PEvent.videoResize 1024 768]).1.transitionScreen =
      some ⟨105, true, 0, 800, 600⟩ ∧
    (c4Game.run_iteration [PEvent.videoResize 1024 768]).1.width = 800 := by
  decide

/-- C4 (amended): a fullscreen toggle does update a live overlay's geometry
to the new window size in the same call; but window-resize events that
arrive while the loop is driving a transition are dropped whole — the
iteration returns right after handle_transition without processing any
event — so they never reach the overlay. -/
theorem c4_overlay_geometry (g : Game) (systemSize : ℕ × ℕ) (ts : LoadingScreen)
    (events : List PEvent) (hts : g.transitionScreen = some ts) :
    ((g.toggle_fullscreen systemSize).transitionScreen =
       some (ts.update_screen_size (g.toggle_fullscreen systemSize).width
                                   (g.toggle_fullscreen systemSize).height)) ∧
    (∀ g1 : Game, g.handle_transition = (g1, true) →
       g.run_iteration events = (g1, true)) := by
  constructor
  · cases hf : g.fullscreen <;>
      simp [Game.toggle_fullscreen, Game.handle_resize, hts, hf,
            LoadingScreen.update_screen_size]
  · intro g1 h1
    simp [Game.run_iteration, hts, h1]

theorem c4_overlay_geometry_witness :
    c4Game.transitionScreen = some ⟨100, true, 0, 800, 600⟩ ∧
    c4Game.handle_transition =
      ({ c4Game with transitionScreen := some ⟨105, true, 0, 800, 600⟩ }, true) ∧
    ((c4Game.toggle_fullscreen (1920, 1080)).transitionScreen =
       some (LoadingScreen.update_screen_size ⟨100, true, 0, 800, 600⟩
               (c4Game.toggle_fullscreen (1920, 1080)).width
               (c4Game.toggle_fullscreen (1920, 1080)).height)) ∧
    c4Game.run_iteration [PEvent.videoResize 1024 768] =
      ({ c4Game with transitionScreen := some ⟨105, true, 0, 800, 600⟩ }, true) :=
  ⟨rfl, by decide,
   (c4_overlay_geometry c4Game (1920, 1080) ⟨100, true, 0, 800, 600⟩
      [PEvent.videoResize 1024 768] rfl).1,
   (c4_overlay_geometry c4Game (1920, 1080) ⟨100, true, 0, 800, 600⟩
      [PEvent.videoResize 1024 768] rfl).2
     { c4Game with transitionScreen := some ⟨105, true, 0, 800, 600⟩ } (by decide)⟩

/-- While a transition sits in its loading phase (overlay active at alpha
255) with the task already created, every further handle_transition tick
keeps the task, creates no new one, and stays in the loading phase. -/
theorem iterate_loading_locked (n : ℕ) :
    ∀ (g : Game) (ts : LoadingScreen),
      g.pendingView = some "game" → g.transitionScreen = some ts →
      ts.active = true → ts.alpha = 255 → g.hasLoadTask = true →
      (g.iterate_transition n).tasksCreated = g.tasksCreated ∧
      (g.iterate_transition n).hasLoadTask = true := by
  induction n with
  | zero =>
    intro g ts _ _ _ _ ht
    exact ⟨rfl, ht⟩
  | succ n ih =>
    intro g ts hp hts ha hα ht
    have hfade : ts.update_fade = { ts with alpha := 255 } := by
      simp [LoadingScreen.update_fade, ha, hα]
    have hstep : (g.handle_transition).1 =
        { g with transitionScreen := some { ts with alpha := 255 } } := by
      simp [Game.handle_transition, hp, hts, hfade, ha, ht]
    have hrec := ih { g with transitionScreen := some { ts with alpha := 255 } }
      { ts with alpha := 255 } hp rfl ha rfl ht
    rw [Game.iterate_transition, hstep]
    exact hrec

/-- C3: for a single game-start transition sitting in its loading phase, the
asynchronous loading task is created exactly once no matter how many loop
iterations run handle_transition: the first tick creates it (bumping the
ghost create_task counter by one) and every later tick is guarded by the
hasattr presence check and keeps the task alive. -/
theorem c3_load_task_created_once (g : Game) (ts : LoadingScreen) (n : ℕ)
    (hp : g.pendingView = some "game") (hts : g.transitionScreen = some ts)
    (ha : ts.active = true) (hα : ts.alpha = 255) (ht : g.hasLoadTask = false) :
    (g.iterate_transition (n + 1)).tasksCreated = g.tasksCreated + 1 ∧
    (g.iterate_transition (n + 1)).hasLoadTask = true := by
  have hfade : ts.update_fade = { ts with alpha := 255 } := by
    simp [LoadingScreen.update_fade, ha, hα]
  have hstep : (g.handle_transition).1 =
      { g with transitionScreen := some { ts with alpha := 255 },
               hasLoadTask := true, tasksCreated := g.tasksCreated + 1 } := by
    simp [Game.handle_transition, hp, hts, hfade, ha, ht]
  have hrec := iterate_loading_locked n
    { g with transitionScreen := some { ts with alpha := 255 },
             hasLoadTask := true, tasksCreated := g.tasksCreated + 1 }
    { ts with alpha := 255 } hp rfl ha rfl rfl
  rw [Game.iterate_transition, hstep]
  exact hrec

theorem c3_load_task_created_once_witness :
    ({ c1Game with hasLoadTask := false, tasksCreated := 0 } : Game).pendingView =
      some "game" ∧
    ({ c1Game with hasLoadTask := false, tasksCreated := 0 } : Game).transitionScreen =
      some ⟨255, true, 40, 800, 600⟩ ∧
    (LoadingScreen.active ⟨255, true, 40, 800, 600⟩ = true ∧
     LoadingScreen.alpha ⟨255, true, 40, 800, 600⟩ = 255) ∧
    ({ c1Game with hasLoadTask := false, tasksCreated := 0 } : Game).hasLoadTask = false ∧
    ((({ c1Game with hasLoadTask := false, tasksCreated := 0 } : Game).iterate_transition
        (3 + 1)).tasksCreated =
      ({ c1Game with hasLoadTask := false, tasksCreated := 0 } : Game).tasksCreated + 1 ∧
     (({ c1Game with hasLoadTask := false, tasksCreated := 0 } : Game).iterate_transition
        (3 + 1)).hasLoadTask = true) :=
  ⟨rfl, rfl, ⟨rfl, rfl⟩, rfl,
   c3_load_task_created_once { c1Game with hasLoadTask := false, tasksCreated := 0 }
     ⟨255, true, 40, 800, 600⟩ 3 rfl rfl rfl rfl rfl⟩

/-- When every animation path fails, the table-building fold adds nothing. -/
theorem foldl_loadAnimStep_all_fail (fs : FS) (scale : ℚ) :
    ∀ (paths : List (String × String)) (acc : List (String × List Frame)),
      allAnimationsFail fs scale paths →
      paths.foldl (loadAnimStep fs scale) acc = acc := by
  intro paths
  induction paths with
  | nil => intro acc _; rfl
  | cons p rest ih =>
    intro acc hall
    have hp : loadAnimStep fs scale acc p = acc := by
      unfold loadAnimStep
      cases hfs : fs p.2 with
      | none => rfl
      | some files =>
        have hempty : loadFrames scale files = [] :=
          hall p (List.mem_cons_self p rest) files hfs
        simp [hempty]
    rw [List.foldl_cons, hp]
    exact ih acc (fun q hq files hf => hall q (List.mem_cons_of_mem p hq) files hf)

/-- C9: constructing a Player never surfaces an error: whatever the
filesystem returns, the animation table is never empty after construction,
and when every animation directory is missing or yields no frame the table
degrades to the single 32x32 magenta placeholder under "idle", which is
also the image the construction selects. -/
theorem c9_player_construction_fallback (pos : ℤ × ℤ) (fs : FS)
    (paths : List (String × String)) (speed scale : ℚ) :
    (Player.init pos fs paths speed scale).animation_frames ≠ [] ∧
    (allAnimationsFail fs scale paths →
      (Player.init pos fs paths speed scale).animation_frames =
        [("idle", [placeholderFrame])] ∧
      (Player.init pos fs paths speed scale).image = placeholderSurface) := by
  have hframes : (Player.init pos fs paths speed scale).animation_frames =
      load_animations fs scale paths := rfl
  constructor
  · rw [hframes]
    unfold load_animations
    cases htab : paths.foldl (loadAnimStep fs scale) [] with
    | nil => simp
    | cons hd tl => simp
  · intro hall
    have htab : paths.foldl (loadAnimStep fs scale) [] = [] :=
      foldl_loadAnimStep_all_fail fs scale paths [] hall
    have hla : load_animations fs scale paths = [("idle", [placeholderFrame])] := by
      unfold load_animations
      rw [htab]
      rfl
    refine ⟨by rw [hframes, hla], ?_⟩
    show (Player.init pos fs paths speed scale).image = placeholderSurface
    unfold Player.init
    simp only [hla]
    rfl

theorem c9_player_construction_fallback_witness :
    allAnimationsFail emptyFS 1 [("idle", "./src/assets/player/idle")] ∧
    ((Player.init (0, 0) emptyFS [("idle", "./src/assets/player/idle")] 5 1).animation_frames ≠ [] ∧
     (Player.init (0, 0) emptyFS [("idle", "./src/assets/player/idle")] 5 1).animation_frames =
       [("idle", [placeholderFrame])] ∧
     (Player.init (0, 0) emptyFS [("idle", "./src/assets/player/idle")] 5 1).image =
       placeholderSurface) := by
  have hall : allAnimationsFail emptyFS 1 [("idle", "./src/assets/player/idle")] := by
    intro p _ files hf
    exact absurd hf (by simp [emptyFS])
  refine ⟨hall, ?_, ?_⟩
  · exact (c9_player_construction_fallback (0, 0) emptyFS
      [("idle", "./src/assets/player/idle")] 5 1).1
  · exact (c9_player_construction_fallback (0, 0) emptyFS
      [("idle", "./src/assets/player/idle")] 5 1).2 hall

/-- The catch-up loop leaves the timer strictly below the speed whenever the
speed is positive. -/
theorem animateLoop_fst_lt (timer speed : ℚ) (idx count : ℕ) (hs : 0 < speed) :
    (animateLoop timer speed idx count).1 < speed := by
  induction timer, speed, idx, count using animateLoop.induct with
  | case1 timer speed idx count h ih =>
      rw [animateLoop.eq_def, dif_pos h]
      exact ih hs
  | case2 timer speed idx count h =>
      rw [animateLoop.eq_def, dif_neg h]
      rcases not_and_or.mp h with h1 | h2
      · exact absurd hs h1
      · exact lt_of_not_le h2

/-- The catch-up loop keeps the frame index inside the frame list. -/
theorem animateLoop_snd_lt (timer speed : ℚ) (idx count : ℕ) (hi : idx < count) :
    (animateLoop timer speed idx count).2 < count := by
  induction timer, speed, idx, count using animateLoop.induct with
  | case1 timer speed idx count h ih =>
      rw [animateLoop.eq_def, dif_pos h]
      exact ih (Nat.mod_lt _ (by omega))
  | case2 timer speed idx count h =>
      rw [animateLoop.eq_def, dif_neg h]
      exact hi

/-- C10: animate(dt) with dt ≥ 0, an existing current animation with a
non-empty frame list and positive speed: the catch-up loop terminates (the
model is a total function), and afterwards the timer is strictly below the
current speed and the frame index is a valid index into the frame list. -/
theorem c10_animate_bounds (p : Player) (dt : ℚ) (frames : List Frame)
    (_hdt : 0 ≤ dt)
    (hf : dlookup p.current_animation p.animation_frames = some frames)
    (_hne : frames ≠ [])
    (hs : 0 < p.get_current_animation_speed)
    (hi : p.frame_index < frames.length) :
    (p.animate dt).animation_timer < p.get_current_animation_speed ∧
    (p.animate dt).frame_index < frames.length := by
  unfold Player.animate
  rw [hf]
  by_cases hc : p.get_current_animation_speed ≤ p.animation_timer + dt
  · simp only [if_pos hc]
    exact ⟨animateLoop_fst_lt _ _ _ _ hs, animateLoop_snd_lt _ _ _ _ hi⟩
  · simp only [if_neg hc]
    exact ⟨lt_of_not_le hc, hi⟩

theorem c10_animate_bounds_witness :
    (0 : ℚ) ≤ 1/4 ∧
    dlookup c10Player.current_animation c10Player.animation_frames =
      some [placeholderFrame] ∧
    ([placeholderFrame] : List Frame) ≠ [] ∧
    0 < c10Player.get_current_animation_speed ∧
    c10Player.frame_index < ([placeholderFrame] : List Frame).length ∧
    ((c10Player.animate (1/4)).animation_timer < c10Player.get_current_animation_speed ∧
     (c10Player.animate (1/4)).frame_index < ([placeholderFrame] : List Frame).length) :=
  have hsp : c10Player.get_current_animation_speed = 1/10 := rfl
  ⟨by norm_num, by decide, by decide, by rw [hsp]; norm_num, by decide,
   c10_animate_bounds c10Player (1/4) [placeholderFrame] (by norm_num) (by decide)
     (by decide) (by rw [hsp]; norm_num) (by decide)⟩

end PGJ
